import Mathlib

/-!
Shallow embedding of the PDF compression backend
(`src/backend/pdf_compressor.py` and `src/backend/app.py`).

Filesystem and subprocess effects are modelled explicitly: `Env` carries
the oracles the code consults (`os.path.exists`, `os.path.getsize`, the
outcome of the single `subprocess.run` call), and every operation returns,
next to its Python return value, the list of external effects it performed
(`os.makedirs`, launching the engine process).  Python floats are modelled
by exact rationals; `round`/`"%.1f"` formatting is modelled by rounding to
the nearest tenth (the Python behaviour at every input relevant here).
-/

set_option autoImplicit false

namespace PdfBackend

/-- Source: `PDFCompressor.QUALITY_SETTINGS`, the quality-tier dictionary
(insertion order `low`, `medium`, `high`, `max`, as in the source). -/
def QUALITY_SETTINGS : List (String × String) :=
  [("low", "/screen"), ("medium", "/ebook"), ("high", "/printer"), ("max", "/prepress")]

/-- The keys of `QUALITY_SETTINGS`, in dictionary order (what
`quality not in self.QUALITY_SETTINGS` and `list(...keys())` see). -/
def quality_keys : List String := QUALITY_SETTINGS.map Prod.fst

/-- Index of the last occurrence of character `c` in `cs` (`str.rfind`). -/
def lastIndexOf (cs : List Char) (c : Char) : Option Nat :=
  ((List.range cs.length).filter (fun i => cs[i]? = some c)).getLast?

/-- Model of `os.path.dirname` (POSIX flavour, `posixpath.dirname`): everything up to
the last `/`, with trailing slashes stripped unless the head is all slashes;
`""` when there is no separator. -/
def dirname (p : String) : String :=
  match lastIndexOf p.data '/' with
  | none => ""
  | some idx =>
    let head := p.data.take (idx + 1)
    if head.all (fun ch => ch = '/') then String.mk head
    else String.mk ((head.reverse.dropWhile (fun ch => ch = '/')).reverse)

/-- Outcome of the single `subprocess.run` call: either the engine process
ran to completion and exited with `code` (stderr captured), or the call
raised some other exception whose `str()` is `msg` (e.g. the executable
could not be launched). -/
inductive RunOutcome where
  | exited (code : Nat) (stderr : String)
  | raised (msg : String)

/-- The external world a single `compress_pdf` call consults:
`pathExists` is `os.path.exists` before the engine runs, `run` is what the
`subprocess.run` call does, `postExists` is `os.path.exists` after the run,
and `size` is `os.path.getsize` after the run. -/
structure Env where
  pathExists : String → Bool
  run : RunOutcome
  postExists : String → Bool
  size : String → Nat

/-- External effects `compress_pdf` can perform besides reading the world. -/
inductive Effect where
  | makedirs (dir : String)
  | runProcess (cmd : List String)
deriving DecidableEq

def Effect.isRunProcess : Effect → Bool
  | Effect.runProcess _ => true
  | _ => false

/-- The Ghostscript argument vector built in `compress_pdf`. -/
def gs_command (ghostscript_cmd quality output_path input_path : String) : List String :=
  [ghostscript_cmd,
   "-sDEVICE=pdfwrite",
   "-dCompatibilityLevel=1.4",
   "-dPDFSETTINGS=" ++ ((QUALITY_SETTINGS.lookup quality).getD ""),
   "-dNOPAUSE",
   "-dQUIET",
   "-dBATCH",
   "-sOutputFile=" ++ output_path,
   input_path]

/-- The keyword arguments of the `subprocess.run` call in `compress_pdf`:
`subprocess.run(gs_command, capture_output=True, text=True, check=True)`.
No `timeout=` is passed, so it defaults to `None` (`none` here). -/
structure RunCall where
  args : List String
  capture_output : Bool
  text : Bool
  check : Bool
  timeout : Option Nat

/-- The exact `subprocess.run` invocation made by `compress_pdf`. -/
def compress_run_call (ghostscript_cmd quality output_path input_path : String) : RunCall :=
  { args := gs_command ghostscript_cmd quality output_path input_path,
    capture_output := true, text := true, check := true, timeout := none }

/-- Python `repr` of a string (the messages only contain plain names). -/
def pyStrRepr (s : String) : String := "\x27" ++ s ++ "\x27"

/-- Python `repr` of a list of strings, as produced by
`f"{list(self.QUALITY_SETTINGS.keys())}"`. -/
def pyListRepr (xs : List String) : String :=
  "[" ++ String.intercalate ", " (xs.map pyStrRepr) ++ "]"

/-- The message returned for an unrecognised quality value. -/
def invalidQualityMsg : String :=
  "Invalid quality setting. Choose from: " ++ pyListRepr quality_keys

/-- Floor of a rational, computed from its reduced numerator and (positive)
denominator so that the kernel can evaluate it. -/
def ratFloor (x : ℚ) : ℤ := Int.fdiv x.num x.den

/-- Python `round(x)`: nearest integer, ties to even (bankers rounding).
`twiceFrac / x.den` is twice the fractional part of `x`, so comparing
`twiceFrac` with `x.den` compares the fractional part with one half. -/
def pyRoundInt (x : ℚ) : ℤ :=
  let n := ratFloor x
  let twiceFrac := 2 * (x.num - n * (x.den : ℤ))
  if twiceFrac < (x.den : ℤ) then n
  else if ((x.den : ℤ)) < twiceFrac then n + 1
  else if n % 2 = 0 then n else n + 1

/-- Rounding a rational to one decimal place: Python `round(x, 1)` and the
rounding performed by the .1f format spec (on the exact rational model of the
float value). -/
def pyRound1 (x : ℚ) : ℚ := ((pyRoundInt (x * 10) : ℤ) : ℚ) / 10

/-- Fixed-point formatting with one decimal digit, the Python format spec
.1f applied to the exact rational model of the float value. -/
def fmt1 (x : ℚ) : String :=
  let n : ℤ := pyRoundInt (x * 10)
  let sign := if n < 0 then "-" else ""
  let m := n.natAbs
  sign ++ toString (m / 10) ++ "." ++ toString (m % 10)

/-- The unit ladder of `format_file_size`. -/
def sizeUnits : List String := ["B", "KB", "MB", "GB"]

/-- Loop body of `PDFCompressor.format_file_size`. -/
def format_file_size_aux : List String → ℚ → String
  | [], size => fmt1 size ++ " TB"
  | u :: us, size =>
    if size < 1024 then fmt1 size ++ " " ++ u
    else format_file_size_aux us (size / 1024)

/-- Source: `PDFCompressor.format_file_size`. -/
def format_file_size (size_bytes : Nat) : String :=
  format_file_size_aux sizeUnits (size_bytes : ℚ)

/-- The expression `(1 - compressed_size / original_size) * 100`, over exact rationals.
Only evaluated with `orig ≠ 0` (in Python, `orig = 0` raises
`ZeroDivisionError` before any ratio exists). -/
def ratioPct (orig comp : Nat) : ℚ := (1 - (comp : ℚ) / (orig : ℚ)) * 100

/-- The success message built in `compress_pdf`. -/
def successMsg (orig comp : Nat) : String :=
  "Compression successful!\n" ++
  "Original size: " ++ format_file_size orig ++ "\n" ++
  "Compressed size: " ++ format_file_size comp ++ "\n" ++
  "Compression ratio: " ++ fmt1 (ratioPct orig comp) ++ "%"

/-- Return value of `compress_pdf` (the Python `Tuple[bool, str]`) together
with the trace of external effects it performed. -/
structure CompressOutput where
  result : Bool × String
  effects : List Effect

/-- Source: `PDFCompressor.compress_pdf`, translated statement by statement:
validate quality, validate input existence, `os.makedirs` on a non-empty
output directory, run Ghostscript (`check=True`: a non-zero exit raises
`CalledProcessError`, caught as `Ghostscript error: ...`; any other
exception is caught as `Unexpected error: ...`), then check the output
path exists and compute sizes and ratio.  With `original_size = 0` the
Python division raises `ZeroDivisionError("division by zero")`, which the
generic handler turns into `Unexpected error: division by zero`. -/
def compress_pdf (env : Env) (ghostscript_cmd input_path output_path quality : String) :
    CompressOutput :=
  match quality_keys.contains quality with
  | false => { result := (false, invalidQualityMsg), effects := [] }
  | true =>
    match env.pathExists input_path with
    | false => { result := (false, "Input file not found: " ++ input_path), effects := [] }
    | true =>
      let output_dir := dirname output_path
      let effs : List Effect :=
        (if output_dir = "" then [] else [Effect.makedirs output_dir]) ++
        [Effect.runProcess (gs_command ghostscript_cmd quality output_path input_path)]
      match env.run with
      | RunOutcome.exited code stderr =>
        match code with
        | 0 =>
          match env.postExists output_path with
          | true =>
            match env.size input_path with
            | 0 => { result := (false, "Unexpected error: division by zero"), effects := effs }
            | _ + 1 =>
              { result := (true,
                  successMsg (env.size input_path) (env.size output_path)),
                effects := effs }
          | false =>
            { result := (false, "Compression failed: Output file not created"),
              effects := effs }
        | _ + 1 => { result := (false, "Ghostscript error: " ++ stderr), effects := effs }
      | RunOutcome.raised msg =>
        { result := (false, "Unexpected error: " ++ msg), effects := effs }

/-- Actions the engine locator can perform: probing a command name with a
version argument, or checking a filesystem path. -/
inductive LocateAction where
  | probeCommand (name : String)
  | checkPath (p : String)
deriving DecidableEq

def LocateAction.isProbeCommand : LocateAction → Bool
  | LocateAction.probeCommand _ => true
  | _ => false

/-- Source: `PDFCompressor._find_ghostscript`.  `gsRelPath` stands for the value of
`os.path.normpath(os.path.join(script_dir, "..", "gs10.05.1", "bin",
"gswin64c.exe"))`; `pathExists` is `os.path.exists`.  The function checks
that single path and returns it when it exists; otherwise it falls through
and returns `None`.  It launches no probe subprocesses; the returned trace
records every locate action performed. -/
def find_ghostscript (gsRelPath : String) (pathExists : String → Bool) :
    Option String × List LocateAction :=
  if pathExists gsRelPath then (some gsRelPath, [LocateAction.checkPath gsRelPath])
  else (none, [LocateAction.checkPath gsRelPath])

/-! ### `src/backend/app.py`: the `/api/compress` handler -/

/-- Source: `ALLOWED_EXTENSIONS` in `app.py`. -/
def ALLOWED_EXTENSIONS : List String := ["pdf"]

/-- The suffix of the filename after its last dot (what the Python
rsplit-on-dot expression extracts), `none` when the filename has no dot. -/
def extAfterLastDot (filename : String) : Option String :=
  match lastIndexOf filename.data '.' with
  | none => none
  | some idx => some (String.mk (filename.data.drop (idx + 1)))

/-- Model of `str.lower`, restricted to ASCII as in the filenames handled here. -/
def lowerStr (s : String) : String := String.mk (s.data.map Char.toLower)

/-- Source: `allowed_file` in `app.py`: the filename contains a dot and its
lowercased suffix after the last dot is an allowed extension. -/
def allowed_file (filename : String) : Bool :=
  match extAfterLastDot filename with
  | none => false
  | some ext => ALLOWED_EXTENSIONS.contains (lowerStr ext)

/-- Source: `valid_qualities` in the `/api/compress` handler. -/
def valid_qualities : List String := ["low", "medium", "high", "max"]

/-- Result of one `/api/compress` request: HTTP status, the filesystem
existence map after the handler finished, and how many times the handler
read the output path (`os.path.getsize` and `send_file`). -/
structure AppResult where
  status : Nat
  filesAfter : String → Bool
  outputReads : Nat

/-- Point update of a filesystem existence map. -/
def setFile (fs : String → Bool) (p : String) (v : Bool) : String → Bool :=
  fun q => if q = p then v else fs q

/-- The `finally` block of the handler: remove the input file if it exists,
then the output file if it exists (`os.remove` modelled as succeeding). -/
def cleanup (fs : String → Bool) (input_path output_path : String) : String → Bool :=
  setFile (setFile fs input_path false) output_path false

/-- The `/api/compress` handler (`compress_pdf` in `app.py`), from the
point where the request fields are in hand.  `gsLocated` is the result of
`PDFCompressor._find_ghostscript` inside `PDFCompressor()` — `none` makes
the constructor raise `RuntimeError`, caught by the outer handler after the
`finally` cleanup ran.  `pre` is the filesystem existence map before the
request; `file.save` is modelled as atomically creating the input file.
Validation failures return 400 before any file is saved. -/
def api_compress (env : Env) (gsLocated : Option String) (pre : String → Bool)
    (hasFile : Bool) (filename : String) (qualityForm : Option String)
    (input_path output_path : String) : AppResult :=
  match hasFile with
  | false => { status := 400, filesAfter := pre, outputReads := 0 }
  | true =>
    let quality := qualityForm.getD "medium"
    match filename == "" with
    | true => { status := 400, filesAfter := pre, outputReads := 0 }
    | false =>
      match allowed_file filename with
      | false => { status := 400, filesAfter := pre, outputReads := 0 }
      | true =>
        match valid_qualities.contains quality with
        | false => { status := 400, filesAfter := pre, outputReads := 0 }
        | true =>
          let fs1 := setFile pre input_path true
          match gsLocated with
          | none =>
            { status := 500, filesAfter := cleanup fs1 input_path output_path,
              outputReads := 0 }
          | some gsCmd =>
            let c := compress_pdf env gsCmd input_path output_path quality
            let fs2 := setFile fs1 output_path
              ((c.effects.any Effect.isRunProcess) && env.postExists output_path)
            match c.result.1 with
            | false =>
              { status := 500, filesAfter := cleanup fs2 input_path output_path,
                outputReads := 0 }
            | true =>
              { status := 200, filesAfter := cleanup fs2 input_path output_path,
                outputReads := 2 }

/-! ### Concrete environments used to instantiate the theorems -/

/-- Engine succeeds, output file appears but is empty (0 bytes); the input
file is 1000 bytes. -/
def envEmptyOut : Env :=
  { pathExists := fun _ => true,
    run := RunOutcome.exited 0 "",
    postExists := fun _ => true,
    size := fun p => if p = "in.pdf" then 1000 else 0 }

/-- Engine succeeds; input 1000 bytes, output 400 bytes. -/
def envSizes : Env :=
  { pathExists := fun _ => true,
    run := RunOutcome.exited 0 "",
    postExists := fun _ => true,
    size := fun p => if p = "in.pdf" then 1000 else 400 }

/-- Engine exits with status 1 and diagnostic text, yet a stray file does
exist at every path, output path included. -/
def envExitOne : Env :=
  { pathExists := fun _ => true,
    run := RunOutcome.exited 1 "boom",
    postExists := fun _ => true,
    size := fun _ => 7 }

/-- The subprocess call raises an exception that is not a non-zero exit. -/
def envRaised : Env :=
  { pathExists := fun _ => true,
    run := RunOutcome.raised "kaput",
    postExists := fun _ => false,
    size := fun _ => 7 }

/-- No file exists anywhere. -/
def envNoFiles : Env :=
  { pathExists := fun _ => false,
    run := RunOutcome.exited 0 "",
    postExists := fun _ => false,
    size := fun _ => 0 }

/-- Engine succeeds, output appears, but the original input is 0 bytes. -/
def envZeroIn : Env :=
  { pathExists := fun _ => true,
    run := RunOutcome.exited 0 "",
    postExists := fun _ => true,
    size := fun _ => 0 }

/-! ### Helper lemmas -/

theorem ratioPct_1000_400 : ratioPct 1000 400 = 60 := by
  norm_num [ratioPct]

theorem ratioPct_1000_1200 : ratioPct 1000 1200 = -20 := by
  norm_num [ratioPct]

theorem pyRoundInt_600 : pyRoundInt (600 : ℚ) = 600 := by decide

theorem pyRoundInt_neg200 : pyRoundInt (-200 : ℚ) = -200 := by decide

theorem fmt1_sixty : fmt1 (60 : ℚ) = "60.0" := by
  simp only [fmt1]
  rw [show ((60 : ℚ) * 10) = (600 : ℚ) by norm_num]
  decide

theorem fmt1_negtwenty : fmt1 (-20 : ℚ) = "-20.0" := by
  simp only [fmt1]
  rw [show ((-20 : ℚ) * 10) = (-200 : ℚ) by norm_num]
  decide

/-- Success of `compress_pdf` forces the success branch: the run exited 0,
the output path existed afterwards, the input size was non-zero, and the
returned message is the success message for the two measured sizes. -/
theorem compress_pdf_success_shape (env : Env) (gsCmd inp outp q : String)
    (h : (compress_pdf env gsCmd inp outp q).result.1 = true) :
    (∃ s, env.run = RunOutcome.exited 0 s) ∧ env.postExists outp = true ∧
      env.size inp ≠ 0 ∧
      (compress_pdf env gsCmd inp outp q).result.2
        = successMsg (env.size inp) (env.size outp) := by
  cases hq : quality_keys.contains q
  · have hq2 : ¬ q ∈ quality_keys := by simpa using hq
    simp [compress_pdf, hq2] at h
  · have hq2 : q ∈ quality_keys := by simpa using hq
    cases hin : env.pathExists inp
    · simp [compress_pdf, hq2, hin] at h
    · rcases hr : env.run with ⟨code, stderr⟩ | m
      · rcases code with _ | code
        · cases hpost : env.postExists outp
          · simp [compress_pdf, hq2, hin, hr, hpost] at h
          · rcases hz : env.size inp with _ | k
            · simp [compress_pdf, hq2, hin, hr, hpost, hz] at h
            · refine ⟨⟨stderr, rfl⟩, rfl, ?_, ?_⟩
              · simp
              · simp [compress_pdf, hq2, hin, hr, hpost, hz]
        · simp [compress_pdf, hq2, hin, hr] at h
      · simp [compress_pdf, hq2, hin, hr] at h

/-! ### Claim theorems -/

/-- C5: a call to `compress_pdf` with a quality string outside the four
recognised values returns `success = false` with the message naming the
valid set (`low`, `medium`, `high`, `max`); a call with a valid quality
but a non-existent input path returns `success = false` with a descriptive
message; in both cases the effect trace is empty, so the engine is never
invoked. -/
theorem C5_validation_short_circuits :
    (∀ (env : Env) (gsCmd inp outp q : String),
      quality_keys.contains q = false →
      compress_pdf env gsCmd inp outp q
        = { result := (false, invalidQualityMsg), effects := [] }) ∧
    (∀ (env : Env) (gsCmd inp outp q : String),
      quality_keys.contains q = true →
      env.pathExists inp = false →
      compress_pdf env gsCmd inp outp q
        = { result := (false, "Input file not found: " ++ inp), effects := [] }) ∧
    invalidQualityMsg
      = "Invalid quality setting. Choose from: [\x27low\x27, \x27medium\x27, \x27high\x27, \x27max\x27]" := by
  refine ⟨?_, ?_, ?_⟩
  · intro env gsCmd inp outp q hq
    have hq2 : ¬ q ∈ quality_keys := by simpa using hq
    simp [compress_pdf, hq2]
  · intro env gsCmd inp outp q hq hin
    have hq2 : q ∈ quality_keys := by simpa using hq
    simp [compress_pdf, hq2, hin]
  · rfl

/-- Closed instantiation of `C5_validation_short_circuits`: quality
`ultra` is rejected with the message naming the valid set, and a valid
quality with a missing input file is rejected, both with an empty effect
trace. -/
theorem C5_witness :
    compress_pdf envNoFiles "gs" "in.pdf" "out.pdf" "ultra"
        = { result := (false, invalidQualityMsg), effects := [] } ∧
    compress_pdf envNoFiles "gs" "missing.pdf" "out.pdf" "low"
      = { result := (false, "Input file not found: " ++ "missing.pdf"), effects := [] } :=
  ⟨C5_validation_short_circuits.1 envNoFiles "gs" "in.pdf" "out.pdf" "ultra" rfl,
   C5_validation_short_circuits.2.1 envNoFiles "gs" "missing.pdf" "out.pdf" "low" rfl rfl⟩

/-- C6: whenever the engine process exits with a non-zero status,
`compress_pdf` returns `success = false` with the captured stderr, for
every environment — in particular also when a file exists at the output
path (`env.postExists` is universally quantified and unconstrained). -/
theorem C6_nonzero_exit_fails (env : Env) (gsCmd inp outp q : String)
    (code : Nat) (stderr : String)
    (hq : quality_keys.contains q = true)
    (hin : env.pathExists inp = true)
    (hrun : env.run = RunOutcome.exited code stderr)
    (hcode : code ≠ 0) :
    (compress_pdf env gsCmd inp outp q).result
      = (false, "Ghostscript error: " ++ stderr) := by
  have hq2 : q ∈ quality_keys := by simpa using hq
  rcases code with _ | c
  · exact absurd rfl hcode
  · simp [compress_pdf, hq2, hin, hrun]

/-- Closed instantiation of `C6_nonzero_exit_fails`: exit status 1 with a
stray file present at the output path still yields `success = false`. -/
theorem C6_witness :
    (compress_pdf envExitOne "gs" "in.pdf" "out.pdf" "medium").result
        = (false, "Ghostscript error: " ++ "boom") ∧
    envExitOne.postExists "out.pdf" = true :=
  ⟨C6_nonzero_exit_fails envExitOne "gs" "in.pdf" "out.pdf" "medium" 1 "boom"
      rfl rfl rfl (by decide),
   rfl⟩

/-- C7: with a zero-byte original input (engine succeeded and the output
file exists), `compress_pdf` does not crash: the Python
`ZeroDivisionError` raised by the ratio computation is caught by the
generic handler and returned as a failure result. -/
theorem C7_zero_byte_original (env : Env) (gsCmd inp outp q : String) (s : String)
    (hq : quality_keys.contains q = true)
    (hin : env.pathExists inp = true)
    (hrun : env.run = RunOutcome.exited 0 s)
    (hout : env.postExists outp = true)
    (hzero : env.size inp = 0) :
    (compress_pdf env gsCmd inp outp q).result
      = (false, "Unexpected error: division by zero") := by
  have hq2 : q ∈ quality_keys := by simpa using hq
  simp [compress_pdf, hq2, hin, hrun, hout, hzero]

/-- Closed instantiation of `C7_zero_byte_original`. -/
theorem C7_witness :
    (compress_pdf envZeroIn "gs" "in.pdf" "out.pdf" "low").result
      = (false, "Unexpected error: division by zero") :=
  C7_zero_byte_original envZeroIn "gs" "in.pdf" "out.pdf" "low" "" rfl rfl rfl rfl rfl

/-- C9: the quality tier is validated before the input path — with an
unrecognised quality string the failure message names the valid quality
set even when the input path does not exist either. -/
theorem C9_quality_checked_first (env : Env) (gsCmd inp outp q : String)
    (hq : quality_keys.contains q = false)
    (hin : env.pathExists inp = false) :
    (compress_pdf env gsCmd inp outp q).result = (false, invalidQualityMsg) := by
  have hq2 : ¬ q ∈ quality_keys := by simpa using hq
  have _hin := hin
  simp [compress_pdf, hq2]

/-- Closed instantiation of `C9_quality_checked_first`: quality `ultra`
together with a missing input file yields the invalid-quality message
(which names the valid set), not the missing-file message. -/
theorem C9_witness :
    (compress_pdf envNoFiles "gs" "missing.pdf" "out.pdf" "ultra").result
      = (false, invalidQualityMsg) :=
  C9_quality_checked_first envNoFiles "gs" "missing.pdf" "out.pdf" "ultra" rfl rfl

/-- C10: a call that fails validation (unrecognised quality or
non-existent input) performs no external effect at all: the effect trace
is empty — no `os.makedirs`, no subprocess, hence no output file. -/
theorem C10_validation_failure_no_effects (env : Env) (gsCmd inp outp q : String)
    (h : quality_keys.contains q = false ∨ env.pathExists inp = false) :
    (compress_pdf env gsCmd inp outp q).effects = [] := by
  rcases h with hq | hin
  · have hq2 : ¬ q ∈ quality_keys := by simpa using hq
    simp [compress_pdf, hq2]
  · cases hq : quality_keys.contains q
    · have hq2 : ¬ q ∈ quality_keys := by simpa using hq
      simp [compress_pdf, hq2]
    · have hq2 : q ∈ quality_keys := by simpa using hq
      simp [compress_pdf, hq2, hin]

/-- Closed instantiation of `C10_validation_failure_no_effects`. -/
theorem C10_witness :
    (compress_pdf envNoFiles "gs" "missing.pdf" "a/out.pdf" "low").effects = [] :=
  C10_validation_failure_no_effects envNoFiles "gs" "missing.pdf" "a/out.pdf" "low"
    (Or.inr rfl)

/-- C1 counterexample: the success branch of `compress_pdf` checks only
that the output path exists, never its size.  In `envEmptyOut` the engine
exits 0 and the output file exists but is empty (0 bytes), yet
`compress_pdf` returns `success = true` — refuting the claim that success
implies a non-zero-size output file. -/
theorem C1_counterexample :
    (compress_pdf envEmptyOut "gs" "in.pdf" "out.pdf" "medium").result.1 = true ∧
    envEmptyOut.postExists "out.pdf" = true ∧
    envEmptyOut.size "out.pdf" = 0 :=
  ⟨rfl, rfl, rfl⟩

/-- C1 (amended): whenever `compress_pdf` returns `success = true`, the
engine process exited with status 0 and the output file exists at the
output path (its size is not checked and may be zero); and the HTTP
handler reads the output path only when the compressor reported
success. -/
theorem C1_success_exit_and_exists :
    (∀ (env : Env) (gsCmd inp outp q : String),
      (compress_pdf env gsCmd inp outp q).result.1 = true →
      (∃ s, env.run = RunOutcome.exited 0 s) ∧ env.postExists outp = true) ∧
    (∀ (env : Env) (gsLoc : Option String) (pre : String → Bool)
       (hasFile : Bool) (fn : String) (qf : Option String) (inp outp : String),
      (api_compress env gsLoc pre hasFile fn qf inp outp).outputReads ≠ 0 →
      ∃ gsCmd, gsLoc = some gsCmd ∧
        (compress_pdf env gsCmd inp outp (qf.getD "medium")).result.1 = true) := by
  constructor
  · intro env gsCmd inp outp q h
    obtain ⟨h1, h2, _, _⟩ := compress_pdf_success_shape env gsCmd inp outp q h
    exact ⟨h1, h2⟩
  · intro env gsLoc pre hasFile fn qf inp outp h
    cases hasFile
    · simp [api_compress] at h
    · cases hfn : fn == ""
      · have hfn2 : ¬ fn = "" := by simpa using hfn
        cases haf : allowed_file fn
        · simp [api_compress, hfn, hfn2, haf] at h
        · cases hvq : valid_qualities.contains (qf.getD "medium")
          · have hvq2 : ¬ (qf.getD "medium") ∈ valid_qualities := by simpa using hvq
            simp [api_compress, hfn, hfn2, haf, hvq2] at h
          · have hvq2 : (qf.getD "medium") ∈ valid_qualities := by simpa using hvq
            rcases gsLoc with _ | gsCmd
            · simp [api_compress, hfn, hfn2, haf, hvq2] at h
            · cases hres : (compress_pdf env gsCmd inp outp (qf.getD "medium")).result.1
              · simp [api_compress, hfn, hfn2, haf, hvq2, hres] at h
              · exact ⟨gsCmd, rfl, hres⟩
      · have hfn2 : fn = "" := by simpa using hfn
        simp [api_compress, hfn2] at h

/-- Closed instantiation of `C1_success_exit_and_exists`. -/
theorem C1_amended_witness :
    (∃ s, envEmptyOut.run = RunOutcome.exited 0 s) ∧
      envEmptyOut.postExists "out.pdf" = true :=
  C1_success_exit_and_exists.1 envEmptyOut "gs" "in.pdf" "out.pdf" "medium" rfl

/-- C2 counterexample: the locator performs no command-name probing at
all.  In an environment where no filesystem path exists (so the fixed
relative path does not resolve), `_find_ghostscript` returns `None` and
its action trace contains no `probeCommand` — refuting the claim that a
list of candidate command names is tried (and the first succeeding one
accepted) before the path fallback. -/
theorem C2_counterexample :
    (find_ghostscript "gs10.05.1/bin/gswin64c.exe" (fun _ => false)).1 = none ∧
    ¬ ∃ name, LocateAction.probeCommand name
        ∈ (find_ghostscript "gs10.05.1/bin/gswin64c.exe" (fun _ => false)).2 := by
  constructor
  · rfl
  · rintro ⟨name, hmem⟩
    simp [find_ghostscript] at hmem

/-- C2 (amended): `_find_ghostscript` probes no command names; it checks
exactly one fixed relative filesystem path (the bundled
`gs10.05.1/bin/gswin64c.exe` relative to the script directory) and
returns it precisely when that path exists, performing no other locate
action. -/
theorem C2_locator_only_checks_fixed_path (gsRelPath : String)
    (pathExists : String → Bool) :
    ((find_ghostscript gsRelPath pathExists).1
        = if pathExists gsRelPath then some gsRelPath else none) ∧
    (find_ghostscript gsRelPath pathExists).2 = [LocateAction.checkPath gsRelPath] := by
  cases hp : pathExists gsRelPath
  · simp [find_ghostscript, hp]
  · simp [find_ghostscript, hp]

/-- C3 counterexample: the `subprocess.run` call in `compress_pdf` passes
no `timeout` argument at all — there is no bounded wall-clock timeout on
the engine invocation, refuting the claim. -/
theorem C3_counterexample :
    ¬ ∃ t, (compress_run_call "gs" "medium" "out.pdf" "in.pdf").timeout = some t := by
  rintro ⟨t, ht⟩
  simp [compress_run_call] at ht

/-- C3 (amended): the engine invocation runs with no timeout
(`timeout = none` in the `subprocess.run` keyword arguments, so the call
may block indefinitely), and any exception from the invocation other than
a non-zero exit status is reported through the generic handler as
`Unexpected error: ...` — there is no distinct timed-out failure kind. -/
theorem C3_no_timeout_and_generic_errors :
    (∀ gsCmd q outp inp, (compress_run_call gsCmd q outp inp).timeout = none) ∧
    (∀ (env : Env) (gsCmd inp outp q m : String),
      quality_keys.contains q = true →
      env.pathExists inp = true →
      env.run = RunOutcome.raised m →
      (compress_pdf env gsCmd inp outp q).result
        = (false, "Unexpected error: " ++ m)) := by
  constructor
  · intro gsCmd q outp inp
    rfl
  · intro env gsCmd inp outp q m hq hin hr
    have hq2 : q ∈ quality_keys := by simpa using hq
    simp [compress_pdf, hq2, hin, hr]

/-- Closed instantiation of `C3_no_timeout_and_generic_errors`. -/
theorem C3_witness :
    (compress_run_call "gs" "medium" "out.pdf" "in.pdf").timeout = none ∧
    (compress_pdf envRaised "gs" "in.pdf" "out.pdf" "medium").result
      = (false, "Unexpected error: " ++ "kaput") :=
  ⟨C3_no_timeout_and_generic_errors.1 "gs" "medium" "out.pdf" "in.pdf",
   C3_no_timeout_and_generic_errors.2 envRaised "gs" "in.pdf" "out.pdf" "medium" "kaput"
     rfl rfl rfl⟩

/-- C4: on every successful compression the returned message is the
success message for the measured sizes — whose reported ratio is, by
definition of `successMsg`, `fmt1 (ratioPct orig comp)`, the formula
`(1 - compressed/original) * 100` rounded to one decimal place; the
formula yields exactly `60.0` at original 1000 / compressed 400 and
exactly `-20.0` (negative, not clamped) at original 1000 /
compressed 1200. -/
theorem C4_ratio_reporting :
    (∀ (env : Env) (gsCmd inp outp q : String),
      (compress_pdf env gsCmd inp outp q).result.1 = true →
      (compress_pdf env gsCmd inp outp q).result.2
        = successMsg (env.size inp) (env.size outp)) ∧
    fmt1 (ratioPct 1000 400) = "60.0" ∧
    fmt1 (ratioPct 1000 1200) = "-20.0" ∧
    pyRound1 (ratioPct 1000 400) = 60 ∧
    pyRound1 (ratioPct 1000 1200) = -20 ∧
    ratioPct 1000 1200 < 0 := by
  refine ⟨?_, ?_, ?_, ?_, ?_, ?_⟩
  · intro env gsCmd inp outp q h
    exact (compress_pdf_success_shape env gsCmd inp outp q h).2.2.2
  · rw [ratioPct_1000_400]
    exact fmt1_sixty
  · rw [ratioPct_1000_1200]
    exact fmt1_negtwenty
  · rw [ratioPct_1000_400]
    simp only [pyRound1]
    rw [show ((60 : ℚ) * 10) = (600 : ℚ) by norm_num, pyRoundInt_600]
    norm_num
  · rw [ratioPct_1000_1200]
    simp only [pyRound1]
    rw [show ((-20 : ℚ) * 10) = (-200 : ℚ) by norm_num, pyRoundInt_neg200]
    norm_num
  · rw [ratioPct_1000_1200]
    norm_num

/-- Closed instantiation of `C4_ratio_reporting`: with input 1000 bytes
and output 400 bytes the success message is `successMsg 1000 400`, whose
reported ratio is `fmt1 (ratioPct 1000 400)`. -/
theorem C4_witness :
    (compress_pdf envSizes "gs" "in.pdf" "out.pdf" "medium").result.2
      = successMsg 1000 400 :=
  C4_ratio_reporting.1 envSizes "gs" "in.pdf" "out.pdf" "medium" rfl

/-- C8: for every `/api/compress` request whose temporary input and
output paths are fresh (do not pre-exist), neither path exists once the
handler has finished, on every control path: validation failures create
no files, and every path that saves the upload runs the cleanup in the
`finally` block. -/
theorem C8_temp_files_removed (env : Env) (gsLoc : Option String)
    (pre : String → Bool) (hasFile : Bool) (fn : String) (qf : Option String)
    (inp outp : String)
    (hin : pre inp = false) (hout : pre outp = false) :
    (api_compress env gsLoc pre hasFile fn qf inp outp).filesAfter inp = false ∧
    (api_compress env gsLoc pre hasFile fn qf inp outp).filesAfter outp = false := by
  cases hasFile
  · simpa [api_compress] using ⟨hin, hout⟩
  · cases hfn : fn == ""
    · have hfn2 : ¬ fn = "" := by simpa using hfn
      cases haf : allowed_file fn
      · simpa [api_compress, hfn, hfn2, haf] using ⟨hin, hout⟩
      · cases hvq : valid_qualities.contains (qf.getD "medium")
        · have hvq2 : ¬ (qf.getD "medium") ∈ valid_qualities := by simpa using hvq
          simpa [api_compress, hfn, hfn2, haf, hvq2] using ⟨hin, hout⟩
        · have hvq2 : (qf.getD "medium") ∈ valid_qualities := by simpa using hvq
          rcases gsLoc with _ | gsCmd
          · constructor <;> simp [api_compress, hfn, hfn2, haf, hvq2, cleanup, setFile]
          · cases hres : (compress_pdf env gsCmd inp outp (qf.getD "medium")).result.1
            · constructor <;>
                simp [api_compress, hfn, hfn2, haf, hvq2, hres, cleanup, setFile]
            · constructor <;>
                simp [api_compress, hfn, hfn2, haf, hvq2, hres, cleanup, setFile]
    · have hfn2 : fn = "" := by simpa using hfn
      simpa [api_compress, hfn2] using ⟨hin, hout⟩

/-- Closed instantiation of `C8_temp_files_removed` on a successful
request. -/
theorem C8_witness :
    (api_compress envSizes (some "gs") (fun _ => false) true "doc.pdf" none
        "in.pdf" "out.pdf").filesAfter "in.pdf" = false ∧
    (api_compress envSizes (some "gs") (fun _ => false) true "doc.pdf" none
        "in.pdf" "out.pdf").filesAfter "out.pdf" = false :=
  C8_temp_files_removed envSizes (some "gs") (fun _ => false) true "doc.pdf" none
    "in.pdf" "out.pdf" rfl rfl

end PdfBackend
